import Mathlib

/-!
Shallow embedding of the ZAPPS-SOL-ARB arbitrage engine
(`src/src/arbitrage_bot.py` and `src/src/modules/price_cache.py`).

Conventions of the embedding:
* Python `Decimal` values (prices, notionals, profits) become `ℚ`; the
  source performs exact decimal arithmetic on short decimal literals, and no
  claim hinges on the 28-digit context precision of `Decimal`.
* `datetime` / `time.time()` instants become `ℚ` (seconds); `timedelta(seconds=10)`
  becomes `+ 10`.
* Fallible collaborators (RPC, HTTP quote providers, transaction submission,
  the SQLite persistence layer) are environment records whose fields give the
  observable outcome of each external call; a raising call is an `Except.error`
  carrying the exception text, a `None`-returning helper is an `Option`.
* Python exceptions caught by a `try`/`except` are propagated as `Except.error`
  values up to the matching handler in the embedding.
-/

/-- The `DEX` enum (`arbitrage_bot.py` lines 67-71). -/
inductive DEX where
  | jupiter
  | raydium
  | orca
  | meteora
deriving DecidableEq, Repr

/-- The `Token` dataclass (`arbitrage_bot.py` lines 73-78): one tracked asset. -/
structure Token where
  symbol : String
  mint : String
  decimals : Nat
  min_liquidity : ℚ
deriving DecidableEq, Repr

/-- The `ArbitrageOpportunity` dataclass (`arbitrage_bot.py` lines 80-92).
`timestamp`/`expires_at` are the `discovered_at` instant and its expiry. -/
structure ArbitrageOpportunity where
  id : String
  token : Token
  buy_dex : DEX
  sell_dex : DEX
  buy_price : ℚ
  sell_price : ℚ
  size_usd : ℚ
  expected_profit : ℚ
  price_impact : ℚ
  timestamp : ℚ
  expires_at : ℚ
deriving DecidableEq, Repr

/-- Predicate `ArbitrageOpportunity.is_valid` (`arbitrage_bot.py` lines 94-95):
`datetime.utcnow() < self.expires_at`, with the current instant explicit. -/
def ArbitrageOpportunity.is_valid (o : ArbitrageOpportunity) (now : ℚ) : Bool :=
  now < o.expires_at

/-- The `TradeResult` dataclass (`arbitrage_bot.py` lines 97-106). -/
structure TradeResult where
  opportunity_id : String
  success : Bool
  buy_tx : Option String
  sell_tx : Option String
  actual_profit : Option ℚ
  error : Option String
  gas_used : ℚ
  execution_time : ℚ
deriving DecidableEq, Repr

/-- Configuration surface of `ProductionArbitrageBot.__init__`
(`arbitrage_bot.py` lines 380-386) plus the Jito flag read from
the config key `use_jito_bundles` (the assignment sits in a misplaced
`__init__` block at lines 116-117; it is config-driven either way). -/
structure BotConfig where
  usdc_mint : String
  min_profit_usd : ℚ
  max_position_size : ℚ
  max_price_impact : ℚ
  max_daily_loss : ℚ
  use_jito : Bool
  bundle_threshold : ℚ
deriving DecidableEq, Repr

/-- Modelled from the spec: `JitoBundleBuilder.should_use_bundle` lives in
`src/modules/jito_client.py`, which is absent from the sources (only its
imported names at `arbitrage_bot.py` lines 44-48 and the call at line 693 remain).
The spec says the atomic path is "chosen when expected profit exceeds a
bundle-worthiness threshold". -/
def should_use_bundle (cfg : BotConfig) (expected_profit : ℚ) : Bool :=
  cfg.bundle_threshold < expected_profit

/-! ## PriceCache (`src/src/modules/price_cache.py`)

The `OrderedDict` is a list of `(key, value, timestamp)` entries, front =
oldest insertion order position (the end is the most-recently-used side,
where `move_to_end` places entries). Proper use keeps keys unique, but no
operation below assumes it. -/

/-- The `PriceCache` state (`price_cache.py` lines 15-24); the hit/miss counters
are irrelevant to the claims and omitted. -/
structure PriceCache (α : Type) where
  ttl : ℚ
  max_size : Nat
  cache : List (String × α × ℚ)
deriving Repr

namespace PriceCache

/-- Helper for `OrderedDict.move_to_end(key)`: delete the binding of `key` and re-append
it at the most-recently-used end. -/
def move_to_end (key : String) (value : α) (ts : ℚ) (l : List (String × α × ℚ)) :
    List (String × α × ℚ) :=
  l.eraseP (fun e => e.1 == key) ++ [(key, value, ts)]

/-- Operation `PriceCache.get` (`price_cache.py` lines 26-43): on a fresh hit the entry
moves to the most-recently-used end; an expired entry is deleted lazily. -/
def get (c : PriceCache α) (now : ℚ) (key : String) : Option α × PriceCache α :=
  match c.cache.find? (fun e => e.1 == key) with
  | some (_, value, timestamp) =>
      if now - timestamp < c.ttl then
        (some value, { c with cache := move_to_end key value timestamp c.cache })
      else
        (none, { c with cache := c.cache.eraseP (fun e => e.1 == key) })
  | none => (none, c)

/-- The `while len(self.cache) >= self.max_size: self.cache.popitem(last=False)`
loop of `PriceCache.set` (`price_cache.py` lines 49-50): drop front entries
while the count is at least `max_size`. -/
def evict_front (max_size : Nat) : List (String × α × ℚ) → List (String × α × ℚ)
  | [] => []
  | e :: rest =>
      if max_size ≤ rest.length + 1 then evict_front max_size rest else e :: rest

/-- Operation `PriceCache.set` (`price_cache.py` lines 45-53): evict from the front
while full, then write the binding and move it to the end (`cache[key] = ...`
followed by `move_to_end`, i.e. remove any existing binding of `key` and
append the new one). -/
def set (c : PriceCache α) (now : ℚ) (key : String) (value : α) : PriceCache α :=
  let evicted := evict_front c.max_size c.cache
  { c with cache := evicted.eraseP (fun e => e.1 == key) ++ [(key, value, now)] }

/-- Operation `PriceCache.clear_expired` (`price_cache.py` lines 55-67). -/
def clear_expired (c : PriceCache α) (now : ℚ) : PriceCache α :=
  { c with cache := c.cache.filter (fun e => now - e.2.2 < c.ttl) }

/-- Operation `PriceCache.clear` (`price_cache.py` lines 69-74). -/
def clear (c : PriceCache α) : PriceCache α :=
  { c with cache := [] }

end PriceCache

/-! ## Per-venue quote operations (`arbitrage_bot.py` lines 433-532)

The HTTP layer is abstracted to the parsed payload: `none` stands for a
non-200 status, timeout, or any raised/parse error (all of which the source
converts to `return None`). The `cached` argument is the `price_cache.get`
result consulted first. -/

/-- Parsed Jupiter quote payload: `outAmount` and the `routePlan` route
`outAmount`s, as exact decimals. -/
structure JupiterResponse where
  outAmount : ℚ
  routeOutAmounts : List ℚ
deriving DecidableEq, Repr

/-- One DexScreener pair record as read by `get_raydium_price`. -/
structure RaydiumPair where
  dexId : String
  quoteSymbol : String
  priceUsd : ℚ
  liquidityUsd : ℚ
deriving DecidableEq, Repr

/-- Method `ProductionArbitrageBot.get_jupiter_price` (`arbitrage_bot.py` lines
433-478) past the rate limiter: cache hit short-circuits; otherwise the
price is `outAmount / 10^6` (USDC decimals) and the liquidity estimate is
`sum(route outAmounts) * 100`. The function stores and returns the pair with
no check against `token.min_liquidity`. -/
def get_jupiter_price (cached : Option (ℚ × ℚ)) (resp : Option JupiterResponse)
    (_token : Token) : Option (ℚ × ℚ) :=
  match cached with
  | some v => some v
  | none =>
      match resp with
      | none => none
      | some r =>
          some (r.outAmount / 10 ^ 6,
                (r.routeOutAmounts.foldl (fun acc a => acc + a) 0) * 100)

/-- Python `max(raydium_pairs, key=liquidity)`: first pair with maximal
liquidity (later pairs replace the champion only on strict increase). -/
def best_raydium_pair (p : RaydiumPair) (ps : List RaydiumPair) : RaydiumPair :=
  ps.foldl (fun best q => if best.liquidityUsd < q.liquidityUsd then q else best) p

/-- Method `ProductionArbitrageBot.get_raydium_price` (`arbitrage_bot.py` lines
480-532) past the rate limiter: filter DexScreener pairs to Raydium
USDC/USDT pairs, pick the highest-liquidity one, and return it only if
`price > 0 and liquidity > token.min_liquidity`. -/
def get_raydium_price (cached : Option (ℚ × ℚ)) (resp : Option (List RaydiumPair))
    (token : Token) : Option (ℚ × ℚ) :=
  match cached with
  | some v => some v
  | none =>
      match resp with
      | none => none
      | some pairs =>
          match pairs.filter (fun p =>
              p.dexId == "raydium" && (p.quoteSymbol == "USDC" || p.quoteSymbol == "USDT")) with
          | [] => none
          | p :: ps =>
              let best := best_raydium_pair p ps
              if 0 < best.priceUsd ∧ token.min_liquidity < best.liquidityUsd then
                some (best.priceUsd, best.liquidityUsd)
              else none

/-! ## Opportunity scanner (`arbitrage_bot.py` lines 550-643) -/

/-- Method `ProductionArbitrageBot.calculate_price_impact` (`arbitrage_bot.py` lines
534-548): 0.1 percent base impact, scaled linearly above a 10000 USD notional.
The `token` and `dex` arguments are accepted and ignored, as in the source. -/
def calculate_price_impact (_token : Token) (_dex : DEX) (size_usd : ℚ) : ℚ :=
  if 10000 < size_usd then (1 / 1000) * (size_usd / 10000) else 1 / 1000

/-- Combined per-leg impact of one candidate size (`arbitrage_bot.py` lines
596-598). -/
def total_impact (token : Token) (buy_dex sell_dex : DEX) (size_usd : ℚ) : ℚ :=
  calculate_price_impact token buy_dex size_usd + calculate_price_impact token sell_dex size_usd

/-- Net profit of one candidate size (`arbitrage_bot.py` lines 604-615):
impact-adjusted two-leg revenue minus notional, proportional swap fees
(0.3 percent per leg) and the fixed gas estimate (0.01 USD). -/
def net_profit_calc (token : Token) (buy_dex sell_dex : DEX)
    (buy_price sell_price size_usd : ℚ) : ℚ :=
  let buy_impact := calculate_price_impact token buy_dex size_usd
  let sell_impact := calculate_price_impact token sell_dex size_usd
  let effective_buy_price := buy_price * (1 + buy_impact)
  let effective_sell_price := sell_price * (1 - sell_impact)
  let tokens := size_usd / effective_buy_price
  let revenue := tokens * effective_sell_price
  let swap_fees := size_usd * (3 / 1000) * 2
  let gas_fees : ℚ := 1 / 100
  revenue - size_usd - swap_fees - gas_fees

/-- The candidate-size ladder `[100, 500, 1000, 2000, 5000]`
(`arbitrage_bot.py` line 590). -/
def sizeLadder : List ℚ := [100, 500, 1000, 2000, 5000]

/-- The `for size_usd in [...]` loop body (`arbitrage_bot.py` lines 590-634):
break once a candidate exceeds `max_size`; skip a candidate whose combined
impact exceeds the cap; emit the first candidate whose net profit reaches
`min_profit_usd` (which also breaks the loop). The opportunity id in the
source is the token symbol plus a wall-clock microsecond stamp; the stamp is
not modelled, so the id is the symbol alone. -/
def size_loop (cfg : BotConfig) (token : Token) (buy_dex sell_dex : DEX)
    (buy_price sell_price max_size now : ℚ) :
    List ℚ → Option ArbitrageOpportunity
  | [] => none
  | size_usd :: rest =>
      if max_size < size_usd then none
      else if cfg.max_price_impact < total_impact token buy_dex sell_dex size_usd then
        size_loop cfg token buy_dex sell_dex buy_price sell_price max_size now rest
      else
        let np := net_profit_calc token buy_dex sell_dex buy_price sell_price size_usd
        if cfg.min_profit_usd ≤ np then
          some { id := token.symbol
                 token := token
                 buy_dex := buy_dex
                 sell_dex := sell_dex
                 buy_price := buy_price
                 sell_price := sell_price
                 size_usd := size_usd
                 expected_profit := np
                 price_impact := total_impact token buy_dex sell_dex size_usd
                 timestamp := now
                 expires_at := now + 10 }
        else size_loop cfg token buy_dex sell_dex buy_price sell_price max_size now rest

/-- The two per-venue quote results available for one token in one scan
cycle (the values of `get_jupiter_price` / `get_raydium_price`). -/
structure TokenQuotes where
  jupiter : Option (ℚ × ℚ)
  raydium : Option (ℚ × ℚ)

/-- Per-token body of `find_arbitrage_opportunities` (`arbitrage_bot.py`
lines 554-638): skip the token unless both venues answered; a zero lower
price makes `price_diff / min(...)` raise `DivisionByZero`, which the
per-token `except` turns into a skip; skip when the percentage difference is
below 0.5; the lower-priced venue buys, and the sizing loop runs on the
candidate ladder with `max_size = min(max_position_size, 10 percent of the
smaller liquidity)`. -/
def scan_token (cfg : BotConfig) (now : ℚ) (q : TokenQuotes) (token : Token) :
    Option ArbitrageOpportunity :=
  match q.jupiter, q.raydium with
  | some (jupiter_price, jupiter_liquidity), some (raydium_price, raydium_liquidity) =>
      if min jupiter_price raydium_price = 0 then none
      else
        let price_diff := |jupiter_price - raydium_price|
        let price_diff_pct := price_diff / min jupiter_price raydium_price * 100
        if price_diff_pct < 1 / 2 then none
        else if jupiter_price < raydium_price then
          size_loop cfg token DEX.jupiter DEX.raydium jupiter_price raydium_price
            (min cfg.max_position_size (min jupiter_liquidity raydium_liquidity * (1 / 10)))
            now sizeLadder
        else
          size_loop cfg token DEX.raydium DEX.jupiter raydium_price jupiter_price
            (min cfg.max_position_size (min raydium_liquidity jupiter_liquidity * (1 / 10)))
            now sizeLadder
  | _, _ => none

/-- Method `ProductionArbitrageBot.find_arbitrage_opportunities` (`arbitrage_bot.py`
lines 550-643): one pass over the tracked tokens, collecting the per-token
emissions in order. -/
def find_arbitrage_opportunities (cfg : BotConfig) (now : ℚ)
    (quotes : Token → TokenQuotes) (tokens : List Token) : List ArbitrageOpportunity :=
  tokens.filterMap (fun t => scan_token cfg now (quotes t) t)

/-- The opportunities that reach the persistence collaborator: each emitted
opportunity is passed to `db.save_opportunity` (`arbitrage_bot.py` line 633);
a raising write is absorbed by the per-token `except` (the opportunity stays
in the returned list but is not persisted). `save_ok` tells which token writes land. -/
def persisted_opportunities (cfg : BotConfig) (now : ℚ)
    (quotes : Token → TokenQuotes) (save_ok : Token → Bool)
    (tokens : List Token) : List ArbitrageOpportunity :=
  (find_arbitrage_opportunities cfg now quotes tokens).filter (fun o => save_ok o.token)

/-! ## Execution (`arbitrage_bot.py` lines 645-891) -/

/-- Observable behaviour of the external collaborators during one
`execute_arbitrage` call. `get_balance` is the RPC wallet-balance call
(already scaled to SOL); `build_buy`/`build_sell` are the
`TransactionBuilder.build_jupiter_swap` results (`none` = build failure);
`send_buy`/`send_sell` are `client.send_transaction` (an `error` is a raised
RPC exception); `save` is the `db.save_trade` append. `fresh_buy_price` and
`fresh_sell_price` are the venue prices at execution time — the quotes a
cache-bypassing re-fetch would observe; the source issues no such fetch. -/
structure ExecEnv where
  get_balance : Except String ℚ
  build_buy : Option String
  build_sell : Option String
  send_buy : Except String String
  send_sell : Except String String
  save : Except String Unit
  fresh_buy_price : ℚ
  fresh_sell_price : ℚ

/-- Outcome of one `execute_arbitrage` call: the returned `TradeResult` (or
the exception that escaped the call), the post-call daily-loss accumulator,
the transaction references submitted on-chain, the number of outbound
network operations issued, and the trade results appended to persistence. -/
structure ExecOutcome where
  result : Except String TradeResult
  daily_loss : ℚ
  submitted : List String
  network_calls : Nat
  saved : List TradeResult

/-- The `TradeResult` returned for an expired opportunity
(`arbitrage_bot.py` lines 650-660). -/
def expiredTradeResult (o : ArbitrageOpportunity) : TradeResult :=
  { opportunity_id := o.id, success := false, buy_tx := none, sell_tx := none,
    actual_profit := none, error := some "Opportunity expired",
    gas_used := 0, execution_time := 0 }

/-- The `TradeResult` returned when the daily loss limit gates the trade
(`arbitrage_bot.py` lines 663-673). -/
def riskTradeResult (o : ArbitrageOpportunity) : TradeResult :=
  { opportunity_id := o.id, success := false, buy_tx := none, sell_tx := none,
    actual_profit := none, error := some "Daily loss limit reached",
    gas_used := 0, execution_time := 0 }

/-- The `TradeResult` synthesized by the `except` handler
(`arbitrage_bot.py` lines 871-883): the captured error text and an assumed
0.005 SOL of sunk gas. Wall-clock timing is not modelled. -/
def failedTradeResult (o : ArbitrageOpportunity) (e : String) : TradeResult :=
  { opportunity_id := o.id, success := false, buy_tx := none, sell_tx := none,
    actual_profit := none, error := some e,
    gas_used := 1 / 200, execution_time := 0 }

/-- Body of the `try` block of `execute_arbitrage` (`arbitrage_bot.py` lines
676-869), returning the result or the raised exception, the count of network
operations issued, and the submitted transaction references.
After the balance check, the Jito branch builds both legs (a Raydium leg
yields `buy_tx = None` / `sell_tx = None` without a network call, then
raises; `size_usd / buy_price` at line 722 raises on a zero price) and then
always raises: the local `TransactionBuilder` class (lines 162-214) has no
`add_jito_tip_instruction`, so line 745 is an unconditional `AttributeError`.
The sequential branch submits the buy leg, estimates the fill
(`size_usd / buy_price`, line 825, raising on a zero price), submits the
sell leg, and reports `actual_profit = expected_profit - 0.01`. -/
def exec_try (cfg : BotConfig) (env : ExecEnv) (o : ArbitrageOpportunity) :
    Except String TradeResult × Nat × List String :=
  match env.get_balance with
  | .error e => (.error e, 1, [])
  | .ok sol_balance =>
    if sol_balance < 1 / 10 then (.error "Insufficient SOL balance for fees", 1, [])
    else
      let bb : Nat := if o.buy_dex = DEX.jupiter then 1 else 0
      let sb : Nat := if o.sell_dex = DEX.jupiter then 1 else 0
      if cfg.use_jito && should_use_bundle cfg o.expected_profit then
        match (if o.buy_dex = DEX.jupiter then env.build_buy else none) with
        | none => (.error "Failed to build buy transaction", 1 + bb, [])
        | some _ =>
          if o.buy_price = 0 then (.error "division by zero", 1 + bb, [])
          else
            match (if o.sell_dex = DEX.jupiter then env.build_sell else none) with
            | none => (.error "Failed to build sell transaction", 1 + bb + sb, [])
            | some _ =>
                (.error "type object TransactionBuilder has no attribute add_jito_tip_instruction",
                 1 + bb + sb, [])
      else
        match (if o.buy_dex = DEX.jupiter then env.build_buy else none) with
        | none => (.error "Failed to build buy transaction", 1 + bb, [])
        | some _ =>
          match env.send_buy with
          | .error e => (.error e, 2 + bb, [])
          | .ok buy_tx_id =>
            if o.buy_price = 0 then (.error "division by zero", 2 + bb, [buy_tx_id])
            else
              match (if o.sell_dex = DEX.jupiter then env.build_sell else none) with
              | none => (.error "Failed to build sell transaction", 2 + bb + sb, [buy_tx_id])
              | some _ =>
                match env.send_sell with
                | .error e => (.error e, 3 + bb + sb, [buy_tx_id])
                | .ok sell_tx_id =>
                    (.ok { opportunity_id := o.id, success := true,
                           buy_tx := some buy_tx_id, sell_tx := some sell_tx_id,
                           actual_profit := some (o.expected_profit - 1 / 100),
                           error := none, gas_used := 1 / 100, execution_time := 0 },
                     3 + bb + sb, [buy_tx_id, sell_tx_id])

/-- Method `ProductionArbitrageBot.execute_arbitrage` (`arbitrage_bot.py` lines
645-891): expiry check, daily-loss gate, then (under the execution lock) the
`try` body; a caught exception synthesizes a failed result and adds a fixed
10 USD to `daily_loss` (line 886); `db.save_trade` runs after the handler,
outside the `try`, so a raising append escapes the call. -/
def execute_arbitrage (cfg : BotConfig) (daily_loss now : ℚ) (env : ExecEnv)
    (o : ArbitrageOpportunity) : ExecOutcome :=
  if now < o.expires_at then
    if cfg.max_daily_loss ≤ daily_loss then
      { result := .ok (riskTradeResult o), daily_loss := daily_loss,
        submitted := [], network_calls := 0, saved := [] }
    else
      match exec_try cfg env o with
      | (.ok result, calls, subs) =>
          match env.save with
          | .ok _ => { result := .ok result, daily_loss := daily_loss,
                       submitted := subs, network_calls := calls, saved := [result] }
          | .error e => { result := .error e, daily_loss := daily_loss,
                          submitted := subs, network_calls := calls, saved := [] }
      | (.error emsg, calls, subs) =>
          let result := failedTradeResult o emsg
          match env.save with
          | .ok _ => { result := .ok result, daily_loss := daily_loss + 10,
                       submitted := subs, network_calls := calls, saved := [result] }
          | .error e => { result := .error e, daily_loss := daily_loss + 10,
                          submitted := subs, network_calls := calls, saved := [] }
  else
    { result := .ok (expiredTradeResult o), daily_loss := daily_loss,
      submitted := [], network_calls := 0, saved := [] }

/-- The returned `TradeResult` of an outcome, when no exception escaped. -/
def ExecOutcome.ok_result (out : ExecOutcome) : Option TradeResult :=
  match out.result with
  | .ok r => some r
  | .error _ => none

/-- The exception text that escaped the call, if any. -/
def ExecOutcome.err_result (out : ExecOutcome) : Option String :=
  match out.result with
  | .ok _ => none
  | .error e => some e

/-! ## Concrete instances used by counterexamples and witnesses -/

/-- A configuration with the default trading parameters of
`config/config.json` (`arbitrage_bot.py` lines 1016-1025) and Jito disabled. -/
def exCfg : BotConfig :=
  { usdc_mint := "EPjF", min_profit_usd := 10, max_position_size := 5000,
    max_price_impact := 1 / 100, max_daily_loss := 100,
    use_jito := false, bundle_threshold := 50 }

/-- A tracked token. -/
def exToken : Token :=
  { symbol := "TEST", mint := "TestMint", decimals := 6, min_liquidity := 1000 }

/-- An unexpired opportunity whose two legs are both Jupiter, so that the
sequential execution path can run both legs to completion. -/
def exOppJJ : ArbitrageOpportunity :=
  { id := "exjj", token := exToken, buy_dex := DEX.jupiter, sell_dex := DEX.jupiter,
    buy_price := 1, sell_price := 51 / 50, size_usd := 100,
    expected_profit := 20, price_impact := 1 / 500,
    timestamp := 0, expires_at := 10 }

/-- As `exOppJJ` but with a zero expected profit, so the realized profit of a
fully successful sequential execution is negative. -/
def exOppZero : ArbitrageOpportunity :=
  { exOppJJ with id := "exzero", expected_profit := 0 }

/-- An execution environment in which every collaborator succeeds. -/
def exEnvOk : ExecEnv :=
  { get_balance := .ok 1, build_buy := some "buysig", build_sell := some "sellsig",
    send_buy := .ok "buyid", send_sell := .ok "sellid", save := .ok (),
    fresh_buy_price := 1, fresh_sell_price := 1 }

/-- The successful `TradeResult` the sequential path produces for `exOppJJ`
under `exEnvOk`. -/
def exResultJJ : TradeResult :=
  { opportunity_id := "exjj", success := true, buy_tx := some "buyid",
    sell_tx := some "sellid", actual_profit := some (1999 / 100),
    error := none, gas_used := 1 / 100, execution_time := 0 }

/-- The successful `TradeResult` the sequential path produces for `exOppZero`
under `exEnvOk`: realized profit `0 - 0.01 < 0`. -/
def exResultZero : TradeResult :=
  { opportunity_id := "exzero", success := true, buy_tx := some "buyid",
    sell_tx := some "sellid", actual_profit := some (-(1 / 100)),
    error := none, gas_used := 1 / 100, execution_time := 0 }

/-- The scanner configuration of the test suite
(`tests/test_arbitrage_bot.py` lines 30-47). -/
def testCfg : BotConfig :=
  { usdc_mint := "EPjF", min_profit_usd := 5, max_position_size := 1000,
    max_price_impact := 1 / 100, max_daily_loss := 50,
    use_jito := false, bundle_threshold := 50 }

/-- Venue quotes with a 2 percent spread and ample liquidity, as in
`test_find_opportunities`. -/
def testQuotes : TokenQuotes :=
  { jupiter := some (1, 50000), raydium := some (51 / 50, 50000) }

/-- The opportunity `scan_token` emits for `testQuotes` under `testCfg`:
the 100 USD candidate nets about 1.19 USD (below the 5 USD floor) and the
500 USD candidate nets `597699/100100` (about 5.97 USD), which is accepted. -/
def testScanOpp : ArbitrageOpportunity :=
  { id := "TEST", token := exToken, buy_dex := DEX.jupiter, sell_dex := DEX.raydium,
    buy_price := 1, sell_price := 51 / 50, size_usd := 500,
    expected_profit := 597699 / 100100, price_impact := 1 / 500,
    timestamp := 0, expires_at := 10 }

/-- Venue quotes with a 1.2 percent spread: every candidate below 5000 USD
misses the 10 USD absolute floor, and the accepted 5000 USD candidate nets
`1989999/100100` (about 19.88 USD) — a margin of about 0.4 percent. -/
def thinQuotes : TokenQuotes :=
  { jupiter := some (1, 100000), raydium := some (253 / 250, 100000) }

/-- The opportunity `scan_token` emits for `thinQuotes` under `exCfg`. -/
def thinScanOpp : ArbitrageOpportunity :=
  { id := "TEST", token := exToken, buy_dex := DEX.jupiter, sell_dex := DEX.raydium,
    buy_price := 1, sell_price := 253 / 250, size_usd := 5000,
    expected_profit := 1989999 / 100100, price_impact := 1 / 500,
    timestamp := 0, expires_at := 10 }

/-- A Jupiter payload whose liquidity estimate (`1 * 100 = 100` USD) is far
below the 1000 USD floor of `exToken`. -/
def lowLiqJupiterResp : JupiterResponse :=
  { outAmount := 1000000, routeOutAmounts := [1] }

/-- A single qualifying DexScreener pair above the floor of `exToken`. -/
def okRaydiumPairs : List RaydiumPair :=
  [{ dexId := "raydium", quoteSymbol := "USDC", priceUsd := 2, liquidityUsd := 5000 }]

/-- A two-entry cache at its capacity of 2. -/
def exCache : PriceCache ℚ :=
  { ttl := 5, max_size := 2, cache := [("a", 1, 0), ("b", 2, 0)] }

/-! # Theorems -/

/-! ## PriceCache bounds (claim C10) -/

/-- The eviction loop of `PriceCache.set` always leaves strictly fewer than
`max_size` entries when `max_size ≥ 1`, whatever the starting size. -/
theorem evict_front_length_lt {α : Type} (max_size : Nat) (hm : 1 ≤ max_size)
    (l : List (String × α × ℚ)) :
    (PriceCache.evict_front max_size l).length < max_size := by
  induction l with
  | nil => simpa [PriceCache.evict_front] using hm
  | cons e rest ih =>
      by_cases h : max_size ≤ rest.length + 1
      · simpa [PriceCache.evict_front, h] using ih
      · simp only [PriceCache.evict_front, if_neg h, List.length_cons]
        omega

/-- C10: with capacity `max_size ≥ 1`, the bound "at most `max_size` entries"
is preserved by every operation; `set` re-establishes it unconditionally
(even from an over-full state, and also when the written key is already
present) because its front-eviction loop runs while the entry count is at
least `max_size` before the insert. -/
theorem price_cache_size_invariant {α : Type} (c : PriceCache α) (now : ℚ)
    (key : String) (value : α) (hm : 1 ≤ c.max_size) :
    ((c.set now key value).cache.length ≤ c.max_size) ∧
    (c.cache.length ≤ c.max_size →
      ((c.get now key).2.cache.length ≤ c.max_size ∧
       (c.clear_expired now).cache.length ≤ c.max_size ∧
       c.clear.cache.length ≤ c.max_size)) := by
  constructor
  · have hev := evict_front_length_lt c.max_size hm c.cache
    have herase := List.length_eraseP_le (PriceCache.evict_front c.max_size c.cache)
      (p := fun e => e.1 == key)
    simp only [PriceCache.set, List.length_append, List.length_cons, List.length_nil]
    omega
  · intro hc
    refine ⟨?_, ?_, ?_⟩
    · rcases hf : c.cache.find? (fun e => e.1 == key) with _ | ⟨k, v, ts⟩
      · simp only [PriceCache.get, hf]
        exact hc
      · have hmem := List.mem_of_find?_eq_some hf
        have hp := List.find?_some hf
        have hpos := List.length_pos_of_mem hmem
        by_cases hfresh : now - ts < c.ttl
        · simp only [PriceCache.get, hf, if_pos hfresh, PriceCache.move_to_end,
            List.length_append, List.length_cons, List.length_nil]
          have hlen := List.length_eraseP_of_mem (p := fun e => e.1 == key) hmem hp
          omega
        · simp only [PriceCache.get, hf, if_neg hfresh]
          exact le_trans (List.length_eraseP_le c.cache) hc
    · exact le_trans (List.length_filter_le _ _) hc
    · simp [PriceCache.clear]

/-! ## Scanner lemmas (claims C6, C7, C9) -/

/-- Every opportunity returned by the sizing loop carries the token of the loop,
venues, prices and discovery/expiry instants. -/
theorem size_loop_fields {cfg : BotConfig} {token : Token} {bd sd : DEX}
    {bp sp ms now : ℚ} {l : List ℚ} {o : ArbitrageOpportunity}
    (h : size_loop cfg token bd sd bp sp ms now l = some o) :
    o.token = token ∧ o.buy_dex = bd ∧ o.sell_dex = sd ∧ o.buy_price = bp ∧
    o.sell_price = sp ∧ o.timestamp = now ∧ o.expires_at = now + 10 := by
  induction l with
  | nil => simp [size_loop] at h
  | cons s rest ih =>
      simp only [size_loop] at h
      split at h
      · exact absurd h (by simp)
      · split at h
        · exact ih h
        · split at h
          · injection h with h
            subst h
            exact ⟨rfl, rfl, rfl, rfl, rfl, rfl, rfl⟩
          · exact ih h

/-- The sizing loop accepts the first candidate in list order that fits under
`max_size`, passes the impact cap, and reaches the absolute profit floor;
every earlier candidate fits under `max_size` but fails the impact cap or the
profit floor. -/
theorem size_loop_first_accept {cfg : BotConfig} {token : Token} {bd sd : DEX}
    {bp sp ms now : ℚ} {l : List ℚ} {o : ArbitrageOpportunity}
    (h : size_loop cfg token bd sd bp sp ms now l = some o) :
    ∃ pre post, l = pre ++ o.size_usd :: post ∧
      o.size_usd ≤ ms ∧
      total_impact token bd sd o.size_usd ≤ cfg.max_price_impact ∧
      cfg.min_profit_usd ≤ net_profit_calc token bd sd bp sp o.size_usd ∧
      o.expected_profit = net_profit_calc token bd sd bp sp o.size_usd ∧
      ∀ s ∈ pre, s ≤ ms ∧
        (cfg.max_price_impact < total_impact token bd sd s ∨
         net_profit_calc token bd sd bp sp s < cfg.min_profit_usd) := by
  induction l with
  | nil => simp [size_loop] at h
  | cons s rest ih =>
      simp only [size_loop] at h
      by_cases hms : ms < s
      · rw [if_pos hms] at h
        exact absurd h (by simp)
      · rw [if_neg hms] at h
        by_cases himp : cfg.max_price_impact < total_impact token bd sd s
        · rw [if_pos himp] at h
          obtain ⟨pre, post, heq, h1, h2, h3, h4, h5⟩ := ih h
          refine ⟨s :: pre, post, by rw [List.cons_append, heq], h1, h2, h3, h4, ?_⟩
          intro x hx
          rcases List.mem_cons.mp hx with hx | hx
          · subst hx
            exact ⟨not_lt.mp hms, Or.inl himp⟩
          · exact h5 x hx
        · rw [if_neg himp] at h
          by_cases hnp : cfg.min_profit_usd ≤ net_profit_calc token bd sd bp sp s
          · rw [if_pos hnp] at h
            injection h with h
            subst h
            refine ⟨[], rest, rfl, not_lt.mp hms, not_lt.mp himp, hnp, rfl, ?_⟩
            intro x hx
            exact absurd hx (List.not_mem_nil x)
          · rw [if_neg hnp] at h
            obtain ⟨pre, post, heq, h1, h2, h3, h4, h5⟩ := ih h
            refine ⟨s :: pre, post, by rw [List.cons_append, heq], h1, h2, h3, h4, ?_⟩
            intro x hx
            rcases List.mem_cons.mp hx with hx | hx
            · subst hx
              exact ⟨not_lt.mp hms, Or.inr (not_le.mp hnp)⟩
            · exact h5 x hx

/-- Destructor for a successful `scan_token` call: both venues answered, the
lower price is nonzero, the 0.5 percent spread gate passed, and the sizing
loop ran on the pair oriented by the price comparison. -/
theorem scan_token_cases {cfg : BotConfig} {now : ℚ} {q : TokenQuotes} {t : Token}
    {o : ArbitrageOpportunity} (h : scan_token cfg now q t = some o) :
    ∃ jp jl rp rl, q.jupiter = some (jp, jl) ∧ q.raydium = some (rp, rl) ∧
      ¬ min jp rp = 0 ∧ ¬ |jp - rp| / min jp rp * 100 < 1 / 2 ∧
      ((jp < rp ∧ size_loop cfg t DEX.jupiter DEX.raydium jp rp
          (min cfg.max_position_size (min jl rl * (1 / 10))) now sizeLadder = some o) ∨
       (¬ jp < rp ∧ size_loop cfg t DEX.raydium DEX.jupiter rp jp
          (min cfg.max_position_size (min rl jl * (1 / 10))) now sizeLadder = some o)) := by
  obtain ⟨qj, qr⟩ := q
  rcases qj with _ | ⟨jp, jl⟩
  · simp [scan_token] at h
  · rcases qr with _ | ⟨rp, rl⟩
    · simp [scan_token] at h
    · simp only [scan_token] at h
      by_cases hz : min jp rp = 0
      · rw [if_pos hz] at h
        exact absurd h (by simp)
      · rw [if_neg hz] at h
        by_cases hpct : |jp - rp| / min jp rp * 100 < 1 / 2
        · rw [if_pos hpct] at h
          exact absurd h (by simp)
        · rw [if_neg hpct] at h
          by_cases hdir : jp < rp
          · rw [if_pos hdir] at h
            exact ⟨jp, jl, rp, rl, rfl, rfl, hz, hpct, Or.inl ⟨hdir, h⟩⟩
          · rw [if_neg hdir] at h
            exact ⟨jp, jl, rp, rl, rfl, rfl, hz, hpct, Or.inr ⟨hdir, h⟩⟩

/-- Every opportunity the scanner emits for a token carries that token. -/
theorem scan_token_token {cfg : BotConfig} {now : ℚ} {q : TokenQuotes} {t : Token}
    {o : ArbitrageOpportunity} (h : scan_token cfg now q t = some o) :
    o.token = t := by
  obtain ⟨jp, jl, rp, rl, -, -, -, -, hcase⟩ := scan_token_cases h
  rcases hcase with ⟨-, hsl⟩ | ⟨-, hsl⟩ <;> exact (size_loop_fields hsl).1

/-- A token list with pairwise distinct symbols holds at most one token with
any given symbol. -/
theorem countP_symbol_le_one (s : String) (tokens : List Token)
    (hnd : (tokens.map Token.symbol).Nodup) :
    List.countP (fun t => t.symbol == s) tokens ≤ 1 := by
  induction tokens with
  | nil => simp
  | cons t ts ih =>
      rw [List.map_cons, List.nodup_cons] at hnd
      by_cases hts : t.symbol = s
      · rw [List.countP_cons_of_pos _ _ (by simp [hts])]
        have hzero : List.countP (fun t => t.symbol == s) ts = 0 := by
          rw [List.countP_eq_zero]
          intro x hx hxb
          have hxs : x.symbol = s := by simpa using hxb
          have hmem := List.mem_map_of_mem Token.symbol hx
          rw [hxs, ← hts] at hmem
          exact hnd.1 hmem
        rw [hzero]
      · rw [List.countP_cons_of_neg _ _ (by simp [hts])]
        exact ih hnd.2

/-- C9: every opportunity the scanner constructs satisfies
`buy_price < sell_price` at creation, and `is_valid` holds exactly when the
current instant is earlier than `expires_at`. -/
theorem opportunity_buy_lt_sell_and_validity
    (cfg : BotConfig) (now : ℚ) (q : TokenQuotes) (t : Token)
    (o o2 : ArbitrageOpportunity) (t2 : ℚ)
    (h : scan_token cfg now q t = some o) :
    o.buy_price < o.sell_price ∧ (o2.is_valid t2 = true ↔ t2 < o2.expires_at) := by
  constructor
  · obtain ⟨jp, jl, rp, rl, hqj, hqr, hz, hpct, hcase⟩ := scan_token_cases h
    rcases hcase with ⟨hdir, hsl⟩ | ⟨hdir, hsl⟩
    · obtain ⟨-, -, -, hb, hs, -, -⟩ := size_loop_fields hsl
      rw [hb, hs]
      exact hdir
    · obtain ⟨-, -, -, hb, hs, -, -⟩ := size_loop_fields hsl
      rw [hb, hs]
      rcases lt_or_eq_of_le (not_lt.mp hdir) with hlt | heq
      · exact hlt
      · exfalso
        apply hpct
        rw [heq]
        simp [sub_self]
  · simp [ArbitrageOpportunity.is_valid]

/-- Witness for C9 at the 2 percent-spread test quotes. -/
theorem opportunity_buy_lt_sell_witness :
    testScanOpp.buy_price < testScanOpp.sell_price ∧
    (exOppJJ.is_valid 3 = true ↔ (3 : ℚ) < exOppJJ.expires_at) :=
  opportunity_buy_lt_sell_and_validity testCfg 0 testQuotes exToken testScanOpp exOppJJ 3
    (by norm_num [scan_token, testQuotes, testCfg, exToken, testScanOpp, size_loop,
      sizeLadder, net_profit_calc, total_impact, calculate_price_impact, min_def,
      abs_of_nonneg])

/-- C6: one scan pass emits, and hands to the persistence collaborator, at
most one opportunity per tracked asset (tokens are loaded from a
symbol-keyed configuration dict, so their symbols are pairwise distinct). -/
theorem scan_at_most_one_per_asset
    (cfg : BotConfig) (now : ℚ) (quotes : Token → TokenQuotes) (save_ok : Token → Bool)
    (tokens : List Token) (hnd : (tokens.map Token.symbol).Nodup) (s : String) :
    ((find_arbitrage_opportunities cfg now quotes tokens).countP
        (fun o => o.token.symbol == s) ≤ 1) ∧
    ((persisted_opportunities cfg now quotes save_ok tokens).countP
        (fun o => o.token.symbol == s) ≤ 1) := by
  have hmain : (find_arbitrage_opportunities cfg now quotes tokens).countP
      (fun o => o.token.symbol == s) ≤ 1 := by
    rw [find_arbitrage_opportunities, List.countP_filterMap]
    refine le_trans (List.countP_mono_left ?_) (countP_symbol_le_one s tokens hnd)
    intro t ht hp
    rcases hsc : scan_token cfg now (quotes t) t with _ | o
    · rw [hsc] at hp
      simp at hp
    · rw [hsc] at hp
      simp only [Option.map_some', Option.getD_some] at hp
      rw [← scan_token_token hsc]
      exact hp
  refine ⟨hmain, ?_⟩
  rw [persisted_opportunities, List.countP_filter]
  refine le_trans (List.countP_mono_left ?_) hmain
  intro o ho hp
  simp only [Bool.and_eq_true] at hp
  exact hp.1

/-- Witness for C6 on a one-token list. -/
theorem scan_at_most_one_witness :
    ((find_arbitrage_opportunities testCfg 0 (fun _ => testQuotes) [exToken]).countP
        (fun o => o.token.symbol == "TEST") ≤ 1) ∧
    ((persisted_opportunities testCfg 0 (fun _ => testQuotes) (fun _ => true) [exToken]).countP
        (fun o => o.token.symbol == "TEST") ≤ 1) :=
  scan_at_most_one_per_asset testCfg 0 (fun _ => testQuotes) (fun _ => true) [exToken]
    (by simp) "TEST"

/-- C7 (amended): the candidate ladder is strictly ascending, and the emitted
opportunity is the first candidate under the notional bound whose impact
passes the cap and whose net profit reaches the absolute floor
`min_profit_usd`; all earlier candidates fail the impact cap or the absolute
floor. (The source applies no percentage-margin floor at this step.) -/
theorem scan_first_ascending_candidate_absolute_floor
    (cfg : BotConfig) (now : ℚ) (q : TokenQuotes) (t : Token) (o : ArbitrageOpportunity)
    (h : scan_token cfg now q t = some o) :
    List.Chain' (· < ·) sizeLadder ∧
    (∃ ms pre post, sizeLadder = pre ++ o.size_usd :: post ∧
      o.size_usd ≤ ms ∧
      total_impact t o.buy_dex o.sell_dex o.size_usd ≤ cfg.max_price_impact ∧
      cfg.min_profit_usd ≤
        net_profit_calc t o.buy_dex o.sell_dex o.buy_price o.sell_price o.size_usd ∧
      o.expected_profit =
        net_profit_calc t o.buy_dex o.sell_dex o.buy_price o.sell_price o.size_usd ∧
      ∀ s ∈ pre, s ≤ ms ∧
        (cfg.max_price_impact < total_impact t o.buy_dex o.sell_dex s ∨
         net_profit_calc t o.buy_dex o.sell_dex o.buy_price o.sell_price s
           < cfg.min_profit_usd)) := by
  refine ⟨by norm_num [sizeLadder, List.chain'_cons, List.chain'_singleton], ?_⟩
  obtain ⟨jp, jl, rp, rl, hqj, hqr, hz, hpct, hcase⟩ := scan_token_cases h
  rcases hcase with ⟨hdir, hsl⟩ | ⟨hdir, hsl⟩ <;>
  · obtain ⟨-, hbd, hsd, hbp, hsp, -, -⟩ := size_loop_fields hsl
    obtain ⟨pre, post, heq, h1, h2, h3, h4, h5⟩ := size_loop_first_accept hsl
    rw [hbd, hsd, hbp, hsp]
    exact ⟨_, pre, post, heq, h1, h2, h3, h4, h5⟩

/-- Witness for C7 at the test quotes: the 500 USD candidate is accepted
after the 100 USD candidate fails the floor. -/
theorem scan_first_candidate_witness :
    List.Chain' (· < ·) sizeLadder ∧
    (∃ ms pre post, sizeLadder = pre ++ testScanOpp.size_usd :: post ∧
      testScanOpp.size_usd ≤ ms ∧
      total_impact exToken testScanOpp.buy_dex testScanOpp.sell_dex testScanOpp.size_usd
        ≤ testCfg.max_price_impact ∧
      testCfg.min_profit_usd ≤
        net_profit_calc exToken testScanOpp.buy_dex testScanOpp.sell_dex
          testScanOpp.buy_price testScanOpp.sell_price testScanOpp.size_usd ∧
      testScanOpp.expected_profit =
        net_profit_calc exToken testScanOpp.buy_dex testScanOpp.sell_dex
          testScanOpp.buy_price testScanOpp.sell_price testScanOpp.size_usd ∧
      ∀ s ∈ pre, s ≤ ms ∧
        (testCfg.max_price_impact <
           total_impact exToken testScanOpp.buy_dex testScanOpp.sell_dex s ∨
         net_profit_calc exToken testScanOpp.buy_dex testScanOpp.sell_dex
           testScanOpp.buy_price testScanOpp.sell_price s < testCfg.min_profit_usd)) :=
  scan_first_ascending_candidate_absolute_floor testCfg 0 testQuotes exToken testScanOpp
    (by norm_num [scan_token, testQuotes, testCfg, exToken, testScanOpp, size_loop,
      sizeLadder, net_profit_calc, total_impact, calculate_price_impact, min_def,
      abs_of_nonneg])

/-- Counterexample for C7 as stated: under the default configuration, a 1.2
percent spread yields an accepted 5000 USD candidate whose net margin is
below 0.5 percent (and below 1 percent) — the emission clears only the
absolute floor, so no minimum percentage-margin floor is applied. -/
theorem scan_no_margin_floor_counterexample :
    scan_token exCfg 0 thinQuotes exToken = some thinScanOpp ∧
    exCfg.min_profit_usd ≤ thinScanOpp.expected_profit ∧
    thinScanOpp.expected_profit * 200 < thinScanOpp.size_usd ∧
    thinScanOpp.expected_profit * 100 < thinScanOpp.size_usd := by
  norm_num [scan_token, thinQuotes, exCfg, exToken, thinScanOpp, size_loop,
    sizeLadder, net_profit_calc, total_impact, calculate_price_impact, min_def,
    abs_of_nonneg]

/-! ## Per-venue liquidity floor (claim C8) -/

/-- C8 (amended): only the Raydium path enforces the per-asset liquidity
floor — on a cache miss it returns a quote only when the best pair has a
positive price and liquidity strictly above `min_liquidity` (so liquidity at
or below the floor yields `None`). -/
theorem raydium_enforces_liquidity_floor
    (resp : Option (List RaydiumPair)) (token : Token) (price liquidity : ℚ)
    (h : get_raydium_price none resp token = some (price, liquidity)) :
    token.min_liquidity < liquidity ∧ 0 < price := by
  rcases resp with _ | pairs
  · simp [get_raydium_price] at h
  · simp only [get_raydium_price] at h
    split at h
    · exact absurd h (by simp)
    · split at h
      · rename_i hcond
        injection h with h
        rw [Prod.mk.injEq] at h
        obtain ⟨hp, hl⟩ := h
        rw [← hp, ← hl]
        exact ⟨hcond.2, hcond.1⟩
      · exact absurd h (by simp)

/-- Witness for the Raydium floor at a qualifying pair. -/
theorem raydium_floor_witness :
    exToken.min_liquidity < 5000 ∧ (0 : ℚ) < 2 :=
  raydium_enforces_liquidity_floor (some okRaydiumPairs) exToken 2 5000
    (by norm_num [get_raydium_price, okRaydiumPairs, exToken, best_raydium_pair])

/-- Counterexample for C8 as stated: the Jupiter path returns a quote whose
liquidity estimate (100 USD) is far below the 1000 USD asset floor. -/
theorem jupiter_ignores_liquidity_floor_counterexample :
    get_jupiter_price none (some lowLiqJupiterResp) exToken = some (1, 100) ∧
    (100 : ℚ) < exToken.min_liquidity := by
  norm_num [get_jupiter_price, lowLiqJupiterResp, exToken, List.foldl_cons, List.foldl_nil]

/-! ## Execution lemmas (claims C1-C5) -/

/-- Once the expiry and risk gates pass, the `try` body always issues at
least one network operation (the wallet-balance RPC call comes first). -/
theorem exec_try_calls_pos (cfg : BotConfig) (env : ExecEnv) (o : ArbitrageOpportunity) :
    1 ≤ (exec_try cfg env o).2.1 := by
  unfold exec_try
  repeat' split
  all_goals dsimp only
  all_goals omega

/-- The only `Except.ok` leaf of the `try` body is the sequential success,
which always reports `actual_profit = expected_profit - 0.01`. -/
theorem exec_try_ok_fields (cfg : BotConfig) (env : ExecEnv) (o : ArbitrageOpportunity)
    (r : TradeResult) (h : (exec_try cfg env o).1 = Except.ok r) :
    r.success = true ∧ r.actual_profit = some (o.expected_profit - 1 / 100) := by
  unfold exec_try at h
  repeat' split at h
  all_goals simp at h
  all_goals subst h
  all_goals simp

/-- C1 (amended): `execute_arbitrage` performs no quote re-fetch and no
spread or margin reverification — its outcome is unchanged under arbitrary
venue prices at execution time. -/
theorem execute_independent_of_live_quotes
    (cfg : BotConfig) (daily_loss now : ℚ) (env : ExecEnv) (o : ArbitrageOpportunity)
    (p q : ℚ) :
    execute_arbitrage cfg daily_loss now
        { env with fresh_buy_price := p, fresh_sell_price := q } o =
      execute_arbitrage cfg daily_loss now env o := by
  cases env
  rfl

/-- Counterexample for C1 as stated: a live opportunity passing the risk
gate, while the fresh venue prices have collapsed to equality (zero spread,
zero margin — far below any stricter minimum or the 1 percent floor); the
call nevertheless submits both legs and returns a successful TradeResult
instead of an abort. -/
theorem execute_no_reverify_counterexample :
    exEnvOk.fresh_buy_price = exEnvOk.fresh_sell_price ∧
    (0 : ℚ) < exOppJJ.expires_at ∧ (0 : ℚ) < exCfg.max_daily_loss ∧
    (execute_arbitrage exCfg 0 0 exEnvOk exOppJJ).ok_result = some exResultJJ ∧
    exResultJJ.success = true ∧
    (execute_arbitrage exCfg 0 0 exEnvOk exOppJJ).submitted = ["buyid", "sellid"] := by
  norm_num [execute_arbitrage, exec_try, exCfg, exEnvOk, exOppJJ, exToken, exResultJJ,
    ExecOutcome.ok_result, should_use_bundle]

/-- C3: on an expired opportunity, `execute_arbitrage` returns the failed
"Opportunity expired" TradeResult with zero gas, issues no network call,
submits nothing, leaves the daily loss unchanged, and persists nothing. -/
theorem execute_expired_rejects
    (cfg : BotConfig) (daily_loss now : ℚ) (env : ExecEnv) (o : ArbitrageOpportunity)
    (he : o.expires_at ≤ now) :
    execute_arbitrage cfg daily_loss now env o =
      { result := .ok (expiredTradeResult o), daily_loss := daily_loss,
        submitted := [], network_calls := 0, saved := [] } := by
  rw [execute_arbitrage, if_neg (not_lt.mpr he)]

/-- Witness for C3 at an opportunity ten seconds past its expiry. -/
theorem execute_expired_witness :
    execute_arbitrage exCfg 0 20 exEnvOk exOppJJ =
      { result := .ok (expiredTradeResult exOppJJ), daily_loss := 0,
        submitted := [], network_calls := 0, saved := [] } :=
  execute_expired_rejects exCfg 0 20 exEnvOk exOppJJ (by norm_num [exOppJJ])

/-- C4: for an unexpired opportunity, the call returns the risk-limit
TradeResult while issuing zero network calls exactly when the accumulated
daily loss has reached `max_daily_loss`. -/
theorem execute_risk_limit_iff
    (cfg : BotConfig) (daily_loss now : ℚ) (env : ExecEnv) (o : ArbitrageOpportunity)
    (hv : now < o.expires_at) :
    ((execute_arbitrage cfg daily_loss now env o).ok_result = some (riskTradeResult o) ∧
     (execute_arbitrage cfg daily_loss now env o).network_calls = 0) ↔
    cfg.max_daily_loss ≤ daily_loss := by
  constructor
  · rintro ⟨-, hcalls⟩
    by_contra hgt
    rw [not_le] at hgt
    have hp := exec_try_calls_pos cfg env o
    rw [execute_arbitrage, if_pos hv, if_neg (not_le.mpr hgt)] at hcalls
    rcases hx : exec_try cfg env o with ⟨tr, calls, subs⟩
    rw [hx] at hcalls hp
    rcases tr with e | r <;> rcases hs : env.save with u | e2 <;>
      simp [hs] at hcalls <;> simp at hp <;> omega
  · intro hge
    rw [execute_arbitrage, if_pos hv, if_pos hge]
    exact ⟨rfl, rfl⟩

/-- Witness for C4 with the accumulated loss at the limit. -/
theorem execute_risk_limit_witness :
    (((execute_arbitrage exCfg 100 0 exEnvOk exOppJJ).ok_result =
        some (riskTradeResult exOppJJ)) ∧
      (execute_arbitrage exCfg 100 0 exEnvOk exOppJJ).network_calls = 0) ↔
    exCfg.max_daily_loss ≤ 100 :=
  execute_risk_limit_iff exCfg 100 0 exEnvOk exOppJJ (by norm_num [exOppJJ])

/-- C5 (amended): whenever the persistence append succeeds, every call to
`execute_arbitrage` returns exactly one TradeResult and lets no exception
escape, whatever the other collaborators do. -/
theorem execute_total_when_persistence_succeeds
    (cfg : BotConfig) (daily_loss now : ℚ) (env : ExecEnv) (o : ArbitrageOpportunity)
    (hs : env.save = Except.ok ()) :
    ((execute_arbitrage cfg daily_loss now env o).ok_result).isSome = true := by
  rw [execute_arbitrage]
  split
  · split
    · simp [ExecOutcome.ok_result]
    · rcases hx : exec_try cfg env o with ⟨tr, calls, subs⟩
      rcases tr with e | r <;> simp [hs, ExecOutcome.ok_result]
  · simp [ExecOutcome.ok_result]

/-- Witness for C5 under an all-succeeding environment. -/
theorem execute_total_witness :
    ((execute_arbitrage exCfg 0 0 exEnvOk exOppJJ).ok_result).isSome = true :=
  execute_total_when_persistence_succeeds exCfg 0 0 exEnvOk exOppJJ rfl

/-- Counterexample for C5 as stated: when the persistence append raises, the
exception escapes `execute_arbitrage` and no TradeResult is returned. -/
theorem persistence_error_propagates_counterexample :
    (execute_arbitrage exCfg 0 0
        { exEnvOk with save := Except.error "database write failed" } exOppJJ).err_result =
      some "database write failed" := by
  norm_num [execute_arbitrage, exec_try, exCfg, exEnvOk, exOppJJ, exToken,
    ExecOutcome.err_result, should_use_bundle]

/-- C2 (amended): a TradeResult carrying a realized profit (necessarily the
sequential success path, where it equals `expected_profit - 0.01`) leaves
the daily-loss accumulator unchanged — even when that realized profit is
negative. The accumulator grows only on the exception path, by a fixed 10
USD, where `actual_profit` is `None`. -/
theorem daily_loss_unchanged_on_negative_realized_profit
    (cfg : BotConfig) (daily_loss now : ℚ) (env : ExecEnv) (o : ArbitrageOpportunity)
    (r : TradeResult) (p : ℚ)
    (h : (execute_arbitrage cfg daily_loss now env o).ok_result = some r)
    (hp : r.actual_profit = some p) (hneg : p < 0) :
    (execute_arbitrage cfg daily_loss now env o).daily_loss = daily_loss ∧
    p = o.expected_profit - 1 / 100 := by
  rw [execute_arbitrage] at h ⊢
  by_cases hv : now < o.expires_at
  · rw [if_pos hv] at h ⊢
    by_cases hr : cfg.max_daily_loss ≤ daily_loss
    · rw [if_pos hr] at h ⊢
      simp [ExecOutcome.ok_result] at h
      rw [← h] at hp
      simp [riskTradeResult] at hp
    · rw [if_neg hr] at h ⊢
      rcases hx : exec_try cfg env o with ⟨tr, calls, subs⟩
      have hf := exec_try_ok_fields cfg env o
      rcases tr with e | r0
      · rcases hs : env.save with e2 | u
        · simp only [hx, hs] at h
          simp [ExecOutcome.ok_result] at h
        · simp only [hx, hs] at h
          simp only [ExecOutcome.ok_result] at h
          injection h with h
          rw [← h] at hp
          simp [failedTradeResult] at hp
      · rcases hs : env.save with e2 | u
        · simp only [hx, hs] at h
          simp [ExecOutcome.ok_result] at h
        · simp only [hx, hs] at h ⊢
          simp only [ExecOutcome.ok_result] at h
          have hr0 := hf r0 (by rw [hx])
          injection h with h
          subst h
          refine ⟨trivial, ?_⟩
          rw [hr0.2] at hp
          injection hp with hp
          exact hp.symm
  · rw [if_neg hv] at h ⊢
    simp [ExecOutcome.ok_result] at h
    rw [← h] at hp
    simp [expiredTradeResult] at hp

/-- Witness for C2 at a fully successful execution with zero expected
profit: realized profit is `-0.01 < 0` and the daily loss stays at zero. -/
theorem daily_loss_unchanged_witness :
    (execute_arbitrage exCfg 0 0 exEnvOk exOppZero).daily_loss = 0 ∧
    (-(1 / 100) : ℚ) = exOppZero.expected_profit - 1 / 100 :=
  daily_loss_unchanged_on_negative_realized_profit exCfg 0 0 exEnvOk exOppZero
    exResultZero (-(1 / 100))
    (by norm_num [execute_arbitrage, exec_try, exCfg, exEnvOk, exOppZero, exOppJJ,
      exToken, exResultZero, ExecOutcome.ok_result, should_use_bundle])
    (by norm_num [exResultZero]) (by norm_num)

/-- Counterexample for C2 as stated: a successful execution with negative
realized profit (−0.01 USD) leaves the daily loss at 0 instead of
increasing it by 0.01. -/
theorem negative_profit_no_loss_recorded_counterexample :
    (execute_arbitrage exCfg 0 0 exEnvOk exOppZero).ok_result = some exResultZero ∧
    exResultZero.actual_profit = some (-(1 / 100)) ∧ (-(1 / 100) : ℚ) < 0 ∧
    (execute_arbitrage exCfg 0 0 exEnvOk exOppZero).daily_loss = 0 := by
  norm_num [execute_arbitrage, exec_try, exCfg, exEnvOk, exOppZero, exOppJJ, exToken,
    exResultZero, ExecOutcome.ok_result, should_use_bundle]

/-- Witness for C10 on a two-entry cache at capacity 2. -/
theorem price_cache_size_witness :
    ((exCache.set 1 "a" 3).cache.length ≤ exCache.max_size) ∧
    (exCache.cache.length ≤ exCache.max_size →
      ((exCache.get 1 "a").2.cache.length ≤ exCache.max_size ∧
       (exCache.clear_expired 1).cache.length ≤ exCache.max_size ∧
       exCache.clear.cache.length ≤ exCache.max_size)) :=
  price_cache_size_invariant exCache 1 "a" 3 (by norm_num [exCache])
